import Mathlib

/-!
Shallow embedding of the `saga-tools` repository (files `saga_tools/spack.py`,
`saga_tools/conda.py`, `saga_tools/slurm.py`, `saga_tools/slurm_run_python.py`)
and verification of its specification claims.

Python strings are modelled as Lean `String`, Python `str.split` with a
one-character separator as `pySplitChar`, Python f-string/`str.format`
interpolation as string concatenation, Python exceptions as `Except String`,
and filesystem / subprocess side effects as explicit effect traces.
-/

namespace SagaTools

/-- Model of Python's `str.split(sep)` for a single-character separator,
operating on the character list of the string: splits at every occurrence
of `sep`, keeping empty pieces, so the result always has
`(number of separators) + 1` pieces.  `"".split(sep)` gives `[""]`. -/
def pySplitChar (sep : Char) : List Char → List (List Char)
  | [] => [[]]
  | c :: cs =>
    let rest := pySplitChar sep cs
    if c = sep then
      [] :: rest
    else
      match rest with
      | [] => [[c]]
      | h :: t => (c :: h) :: t

theorem pySplitChar_ne_nil (sep : Char) (l : List Char) : pySplitChar sep l ≠ [] := by
  induction l with
  | nil => simp [pySplitChar]
  | cons c cs ih =>
    simp only [pySplitChar]
    split
    · simp
    · cases h : pySplitChar sep cs with
      | nil => simp
      | cons a b => simp [h]

/-- The number of pieces produced by splitting is the separator count plus one. -/
theorem length_pySplitChar (sep : Char) (l : List Char) :
    (pySplitChar sep l).length = l.count sep + 1 := by
  induction l with
  | nil => simp [pySplitChar]
  | cons c cs ih =>
    simp only [pySplitChar]
    by_cases hc : c = sep
    · subst hc
      simp [List.count_cons, ih]
    · simp only [if_neg hc]
      cases h : pySplitChar sep cs with
      | nil => exact absurd h (pySplitChar_ne_nil sep cs)
      | cons a b =>
        rw [h] at ih
        simp only [List.length_cons] at ih ⊢
        simp [List.count_cons, hc, ih]

/-- Splitting a separator-free list yields just that list. -/
theorem pySplitChar_of_not_mem {sep : Char} {l : List Char} (h : sep ∉ l) :
    pySplitChar sep l = [l] := by
  induction l with
  | nil => rfl
  | cons c cs ih =>
    simp only [List.mem_cons, not_or] at h
    have hne : c ≠ sep := fun hc => h.1 hc.symm
    simp only [pySplitChar, if_neg hne, ih h.2]

/-- Splitting distributes over a separator occurrence: if the prefix `xs` is
separator-free, the first piece is `xs` and the rest is the split of the tail. -/
theorem pySplitChar_append_cons {sep : Char} {xs : List Char} (rest : List Char)
    (h : sep ∉ xs) :
    pySplitChar sep (xs ++ sep :: rest) = xs :: pySplitChar sep rest := by
  induction xs with
  | nil => simp [pySplitChar]
  | cons c cs ih =>
    simp only [List.mem_cons, not_or] at h
    have hne : c ≠ sep := fun hc => h.1 hc.symm
    rw [List.cons_append]
    simp only [pySplitChar, if_neg hne]
    rw [ih h.2]

/-- Soundness of a two-piece split: the input is the two pieces joined by a
single separator, and each piece is separator-free. -/
theorem pySplitChar_eq_pair {sep : Char} :
    ∀ {l a b : List Char}, pySplitChar sep l = [a, b] →
      l = a ++ sep :: b ∧ sep ∉ a ∧ sep ∉ b := by
  intro l
  induction l with
  | nil => intro a b h; simp [pySplitChar] at h
  | cons c cs ih =>
    intro a b h
    by_cases hc : c = sep
    · subst hc
      simp only [pySplitChar, if_pos rfl] at h
      injection h with h1 h2
      subst h1
      have hlen := length_pySplitChar c cs
      rw [h2] at hlen
      have hnotmem : c ∉ cs := by
        rw [← List.count_eq_zero]
        simpa using hlen.symm
      have hsingle := pySplitChar_of_not_mem hnotmem
      rw [hsingle] at h2
      injection h2 with h3 h4
      subst h3
      exact ⟨by simp, by simp, hnotmem⟩
    · simp only [pySplitChar, if_neg hc] at h
      cases h' : pySplitChar sep cs with
      | nil => exact absurd h' (pySplitChar_ne_nil sep cs)
      | cons x t =>
        rw [h'] at h
        injection h with hax ht
        have hxt : pySplitChar sep cs = [x, b] := by rw [h', ht]
        obtain ⟨hcs, hxa, hxb⟩ := ih hxt
        subst hcs
        refine ⟨by rw [← hax]; simp, ?_, hxb⟩
        rw [← hax]
        simp only [List.mem_cons, not_or]
        exact ⟨fun hsc => hc hsc.symm, hxa⟩

/-- Model of Python's `sep.join(pieces)`. -/
def pyJoin (sep : String) : List String → String
  | [] => ""
  | [x] => x
  | x :: y :: xs => x ++ sep ++ pyJoin sep (y :: xs)

/-- Python truthiness of an optional string: `None` and `""` are falsy. -/
def pyTruthyStr : Option String → Bool
  | none => false
  | some s => !(s == "")

/-- Python truthiness of an optional list/tuple: `None` and the empty
sequence are falsy. -/
def pyTruthyList {α : Type} : Option (List α) → Bool
  | none => false
  | some l => !l.isEmpty

/-- `SpackPackage` (attrs class in `spack.py` and duplicated in
`slurm_run_python.py`): an immutable (package name, version) pair. -/
structure SpackPackage where
  package_name : String
  version : String
deriving DecidableEq, Repr

/-- `SpackConfiguration` (attrs class): spack root plus the two optional
fields; the attrs defaults are `spack_environment=None` and
`spack_packages=tuple()`.  `pathlib.Path` values are modelled as the path
string. -/
structure SpackConfiguration where
  spack_root : String
  spack_environment : Option String
  spack_packages : Option (List SpackPackage)
deriving DecidableEq, Repr

/-- `CondaConfiguration` (attrs class in `conda.py` and duplicated in
`slurm_run_python.py`). -/
structure CondaConfiguration where
  conda_base_path : String
  conda_environment : String
deriving DecidableEq, Repr

/-- The key/value mapping loaded from YAML by the external
`vistautils.parameters` collaborator.  Only the keys the embedded code
reads are modelled; `none` means the key is absent (Python `key in params`
is `Option.isSome`). -/
structure Parameters where
  spack_root : Option String := none
  spack_environment : Option String := none
  spack_packages : Option (List String) := none
  conda_base_path : Option String := none
  conda_environment : Option String := none
deriving DecidableEq, Repr

/-- Accessor contract of the parameter collaborator: `params.string(key)`,
`params.existing_directory(key)` and `params.arbitrary_list(key)` return the
key's value and raise a validation error when it is missing.  (Filesystem
existence validation is performed by the external collaborator and is out of
scope; a present key stands for a validated value.) -/
def getParam {α : Type} (v : Option α) (key : String) : Except String α :=
  match v with
  | some x => .ok x
  | none => .error ("missing parameter " ++ key)

/-- `MemoryUnit` closed enumeration from `vistautils.memory_amount`,
restricted (as in the spec's data model) to the four units the formatter
maps. -/
inductive MemoryUnit
  | kilobytes
  | megabytes
  | gigabytes
  | terabytes
deriving DecidableEq, BEq, Repr

/-- `MemoryAmount` from `vistautils.memory_amount`: a magnitude plus a unit. -/
structure MemoryAmount where
  amount : Nat
  unit : MemoryUnit
deriving DecidableEq, Repr

namespace spack
/-! Embedding of `saga_tools/spack.py`. -/

/-- `SpackPackage.parse`: split the specifier on `"@"`; succeed only on
exactly two pieces, otherwise raise a `RuntimeError` naming the specifier. -/
def SpackPackage.parse (package_specifier : String) : Except String SpackPackage :=
  let parts := pySplitChar '@' package_specifier.data
  match parts with
  | [a, b] => .ok { package_name := String.mk a, version := String.mk b }
  | _ =>
    .error ("Expected a package specified of the form packaged@version but got "
      ++ package_specifier)

/-- `SpackPackage.__str__`. -/
def SpackPackage.str (p : SpackPackage) : String :=
  p.package_name ++ "@" ++ p.version

/-- attrs construction of `SpackConfiguration` followed by
`__attrs_post_init__`, which raises when the truthiness of
`spack_environment` equals the truthiness of `spack_packages`. -/
def SpackConfiguration.create (spack_root : String)
    (spack_environment : Option String)
    (spack_packages : Option (List SpackPackage)) :
    Except String SpackConfiguration :=
  if pyTruthyStr spack_environment == pyTruthyList spack_packages then
    .error ("A Spack configuration requires either an environment or a list of packages, "
      ++ "but not both.`")
  else
    .ok { spack_root, spack_environment, spack_packages }

/-- `SpackConfiguration.from_parameters`.  In the environment branch the
constructor receives the attrs default `spack_packages=tuple()`; in the
package branch it receives the default `spack_environment=None`. -/
def SpackConfiguration.from_parameters (params : Parameters) :
    Except String (Option SpackConfiguration) :=
  if params.spack_environment.isSome then
    if params.spack_packages.isSome then
      .error "spack_environment and spack_packages are mutually exclusive"
    else do
      let root ← getParam params.spack_root "spack_root"
      let env ← getParam params.spack_environment "spack_environment"
      let c ← SpackConfiguration.create root (some env) (some [])
      return some c
  else if params.spack_packages.isSome then
    if params.spack_environment.isSome then
      .error "spack_environment and spack_packages are mutually exclusive"
    else do
      let root ← getParam params.spack_root "spack_root"
      let specs ← getParam params.spack_packages "spack_packages"
      let pkgs ← specs.mapM SpackPackage.parse
      let c ← SpackConfiguration.create root none (some pkgs)
      return some c
  else
    return none

/-- `SPACK_COMMON_TEMPLATE.format(spack_root=...)`. -/
def SPACK_COMMON_TEMPLATE (spack_root : String) : String :=
  "\n. \"" ++ spack_root ++ "\"/share/spack/setup-env.sh\n"

/-- `SPACK_ENVIRONMENT_TEMPLATE.format(spack_environment=...)`. -/
def SPACK_ENVIRONMENT_TEMPLATE (spack_environment : String) : String :=
  "\nspack env activate " ++ spack_environment ++ "\n"

/-- `SpackConfiguration.sbatch_lines`.  (`self.spack_packages` is iterated
directly in Python; constructed configurations always carry a list in the
package branch, and `getD []` totalizes the `none` case.) -/
def SpackConfiguration.sbatch_lines (c : SpackConfiguration) : String :=
  let config_lines :=
    if pyTruthyStr c.spack_environment then
      SPACK_ENVIRONMENT_TEMPLATE (c.spack_environment.getD "")
    else
      pyJoin "\n"
        ((c.spack_packages.getD []).map (fun p => "spack load " ++ SpackPackage.str p))
  pyJoin "\n" [SPACK_COMMON_TEMPLATE c.spack_root, config_lines, "\n"]

end spack

namespace conda
/-! Embedding of `saga_tools/conda.py`. -/

/-- `CONDA_SBATCH_TEMPLATE.format(...)`. -/
def CONDA_SBATCH_TEMPLATE (conda_base_path conda_environment : String) : String :=
  "\nsource \"" ++ conda_base_path ++ "\"/etc/profile.d/conda.sh\nconda activate "
    ++ conda_environment ++ "\n"

/-- `CondaConfiguration.from_parameters`. -/
def CondaConfiguration.from_parameters (params : Parameters) :
    Except String (Option CondaConfiguration) :=
  if params.conda_environment.isSome then do
    let base ← getParam params.conda_base_path "conda_base_path"
    let env ← getParam params.conda_environment "conda_environment"
    return some { conda_base_path := base, conda_environment := env }
  else
    return none

/-- `CondaConfiguration.sbatch_lines`. -/
def CondaConfiguration.sbatch_lines (c : CondaConfiguration) : String :=
  CONDA_SBATCH_TEMPLATE c.conda_base_path c.conda_environment

end conda

namespace slurm
/-! Embedding of `saga_tools/slurm.py`. -/

/-- The `SLURM_MEMORY_UNITS` immutable dict, as its association list. -/
def SLURM_MEMORY_UNITS : List (MemoryUnit × String) :=
  [(MemoryUnit.kilobytes, "K"), (MemoryUnit.megabytes, "M"),
   (MemoryUnit.gigabytes, "G"), (MemoryUnit.terabytes, "T")]

/-- `to_slurm_memory_string`: f-string of the magnitude followed by the dict
lookup of the unit; a missing key would be a Python `KeyError`. -/
def to_slurm_memory_string (memory_request : MemoryAmount) : Except String String :=
  match SLURM_MEMORY_UNITS.lookup memory_request.unit with
  | some letter => .ok (toString memory_request.amount ++ letter)
  | none => .error "KeyError"

end slurm

namespace slurm_run_python
/-! Embedding of `saga_tools/slurm_run_python.py`, including its own copies
of the `SpackPackage`, `SpackConfiguration` and `CondaConfiguration` logic
(the file duplicates `spack.py` and `conda.py`). -/

/-- Duplicate of `SpackPackage.parse` inside `slurm_run_python.py`. -/
def SpackPackage.parse (package_specifier : String) : Except String SpackPackage :=
  let parts := pySplitChar '@' package_specifier.data
  match parts with
  | [a, b] => .ok { package_name := String.mk a, version := String.mk b }
  | _ =>
    .error ("Expected a package specified of the form packaged@version but got "
      ++ package_specifier)

/-- Duplicate of `SpackPackage.__str__` inside `slurm_run_python.py`. -/
def SpackPackage.str (p : SpackPackage) : String :=
  p.package_name ++ "@" ++ p.version

/-- Duplicate of the `SpackConfiguration` attrs construction plus
`__attrs_post_init__` inside `slurm_run_python.py`. -/
def SpackConfiguration.create (spack_root : String)
    (spack_environment : Option String)
    (spack_packages : Option (List SpackPackage)) :
    Except String SpackConfiguration :=
  if pyTruthyStr spack_environment == pyTruthyList spack_packages then
    .error ("A Spack configuration requires either an environment or a list of packages, "
      ++ "but not both.`")
  else
    .ok { spack_root, spack_environment, spack_packages }

/-- Duplicate of `SpackConfiguration.from_parameters` inside
`slurm_run_python.py`. -/
def SpackConfiguration.from_parameters (params : Parameters) :
    Except String (Option SpackConfiguration) :=
  if params.spack_environment.isSome then
    if params.spack_packages.isSome then
      .error "spack_environment and spack_packages are mutually exclusive"
    else do
      let root ← getParam params.spack_root "spack_root"
      let env ← getParam params.spack_environment "spack_environment"
      let c ← SpackConfiguration.create root (some env) (some [])
      return some c
  else if params.spack_packages.isSome then
    if params.spack_environment.isSome then
      .error "spack_environment and spack_packages are mutually exclusive"
    else do
      let root ← getParam params.spack_root "spack_root"
      let specs ← getParam params.spack_packages "spack_packages"
      let pkgs ← specs.mapM SpackPackage.parse
      let c ← SpackConfiguration.create root none (some pkgs)
      return some c
  else
    return none

/-- Duplicate of `SPACK_COMMON_TEMPLATE` inside `slurm_run_python.py`. -/
def SPACK_COMMON_TEMPLATE (spack_root : String) : String :=
  "\n. \"" ++ spack_root ++ "\"/share/spack/setup-env.sh\n"

/-- Duplicate of `SPACK_ENVIRONMENT_TEMPLATE` inside `slurm_run_python.py`. -/
def SPACK_ENVIRONMENT_TEMPLATE (spack_environment : String) : String :=
  "\nspack env activate " ++ spack_environment ++ "\n"

/-- Duplicate of `SpackConfiguration.sbatch_lines` inside
`slurm_run_python.py`. -/
def SpackConfiguration.sbatch_lines (c : SpackConfiguration) : String :=
  let config_lines :=
    if pyTruthyStr c.spack_environment then
      SPACK_ENVIRONMENT_TEMPLATE (c.spack_environment.getD "")
    else
      pyJoin "\n"
        ((c.spack_packages.getD []).map (fun p => "spack load " ++ SpackPackage.str p))
  pyJoin "\n" [SPACK_COMMON_TEMPLATE c.spack_root, config_lines, "\n"]

/-- Duplicate of `CONDA_SBATCH_TEMPLATE` inside `slurm_run_python.py`. -/
def CONDA_SBATCH_TEMPLATE (conda_base_path conda_environment : String) : String :=
  "\nsource \"" ++ conda_base_path ++ "\"/etc/profile.d/conda.sh\nconda activate "
    ++ conda_environment ++ "\n"

/-- Duplicate of `CondaConfiguration.from_parameters` inside
`slurm_run_python.py`. -/
def CondaConfiguration.from_parameters (params : Parameters) :
    Except String (Option CondaConfiguration) :=
  if params.conda_environment.isSome then do
    let base ← getParam params.conda_base_path "conda_base_path"
    let env ← getParam params.conda_environment "conda_environment"
    return some { conda_base_path := base, conda_environment := env }
  else
    return none

/-- Duplicate of `CondaConfiguration.sbatch_lines` inside
`slurm_run_python.py`. -/
def CondaConfiguration.sbatch_lines (c : CondaConfiguration) : String :=
  CONDA_SBATCH_TEMPLATE c.conda_base_path c.conda_environment

/-- The `SlurmPythonRunner._SLURM_MEMORY_UNITS` immutable dict. -/
def SLURM_MEMORY_UNITS_dup : List (MemoryUnit × String) :=
  [(MemoryUnit.kilobytes, "K"), (MemoryUnit.megabytes, "M"),
   (MemoryUnit.gigabytes, "G"), (MemoryUnit.terabytes, "T")]

/-- `SlurmPythonRunner._to_slurm_memory_string`. -/
def to_slurm_memory_string (memory_request : MemoryAmount) : Except String String :=
  match SLURM_MEMORY_UNITS_dup.lookup memory_request.unit with
  | some letter => .ok (toString memory_request.amount ++ letter)
  | none => .error "KeyError"

/-- An argument passed to the `pathlib.Path(*args)` constructor: either a
string/path, or (erroneously) a Python list of strings. -/
inductive PyPathArg
  | str (s : String)
  | strList (l : List String)
deriving DecidableEq, Repr

/-- Whether a `Path` constructor argument is a valid path segment. -/
def PyPathArg.isStr : PyPathArg → Bool
  | .str _ => true
  | .strList _ => false

/-- The string carried by a valid path segment. -/
def PyPathArg.asStr : PyPathArg → String
  | .str s => s
  | .strList _ => ""

/-- `pathlib.Path(*args)`: every argument must be a string or a path
(anything else, such as a list, raises `TypeError`); segments are joined
with `/`. -/
def pyPath (args : List PyPathArg) : Except String String :=
  if args.all PyPathArg.isStr then
    .ok (pyJoin "/" (args.map PyPathArg.asStr))
  else
    .error "TypeError: argument should be a str or an os.PathLike object, not list"

/-- `SlurmPythonRunner._job_log_directory`: split the job name on `/`; with
more than one component the Python builds
`path_components = [self.log_base_directory]` and then calls
`path_components.extend([parts[:-1]])`, which appends the sliced *list*
`parts[:-1]` as one element, so `Path(*path_components)` receives that list
as a single constructor argument. -/
def job_log_directory (log_base_directory : String) (job_name : String) :
    Except String String :=
  let parts := (pySplitChar '/' job_name.data).map String.mk
  if parts.length > 1 then
    let path_components : List PyPathArg := [PyPathArg.str log_base_directory]
    let path_components := path_components ++ [PyPathArg.strList parts.dropLast]
    pyPath path_components
  else
    .ok log_base_directory

/-- The account-or-quality-of-service directive computed inline in
`SlurmPythonRunner.run_entry_point`:
`partition in ("scavenge", "ephemeral")` selects `--qos`, anything else
`--account`. -/
def account_or_qos (partition : String) : String :=
  if partition = "scavenge" ∨ partition = "ephemeral" then
    "#SBATCH --qos=" ++ partition
  else
    "#SBATCH --account=" ++ partition

/-- `SLURM_BATCH_TEMPLATE.format(...)`: the fixed shell-script template with
all placeholders substituted (Python `str.format` is string splicing;
`{{`/`}}` in the source render as literal braces). -/
def SLURM_BATCH_TEMPLATE (account_or_qos partition job_name stdout_log_path
    memory_string : String) (num_gpus num_cpus : Nat)
    (conda_lines spack_lines : String)
    (working_directory entry_point param_file : String) : String :=
  "#!/usr/bin/env bash\n\n" ++ account_or_qos
    ++ "\n#SBATCH --partition=" ++ partition
    ++ "\n#SBATCH --job-name=" ++ job_name
    ++ "\n#SBATCH --output=" ++ stdout_log_path
    ++ "\n#SBATCH --mem=" ++ memory_string
    ++ "\n#SBATCH --ntasks=1"
    ++ "\n#SBATCH --gpus-per-task=" ++ toString num_gpus
    ++ "\n#SBATCH --cpus-per-task=" ++ toString num_cpus
    ++ "\n\nset -euo pipefail\n\n"
    ++ "# This is needed because SLURM jobs are run from a non-interactive shell,\n"
    ++ "# but conda expects PS1 (the prompt variable) to be set.\n"
    ++ "if [[ -z ${PS1+x} ]]\n  then\n    export PS1=\"\"\nfi\n\n"
    ++ conda_lines ++ "\n" ++ spack_lines ++ "\n\ncd " ++ working_directory
    ++ "\npython -m " ++ entry_point ++ " " ++ param_file ++ "\n"

/-- `SlurmPythonRunner` (attrs class): log base directory plus the two
optional environment configurations. -/
structure SlurmPythonRunner where
  log_base_directory : String
  conda_config : Option CondaConfiguration
  spack_config : Option SpackConfiguration
deriving DecidableEq, Repr

/-- The full script text rendered by `run_entry_point`'s
`SLURM_BATCH_TEMPLATE.format(...)` call: absent configurations contribute
empty text (`... if self.spack_config else ""`). -/
def rendered_script (conda_config : Option CondaConfiguration)
    (spack_config : Option SpackConfiguration)
    (partition job_name stdout_log_path memory_string : String)
    (num_gpus num_cpus : Nat)
    (working_directory entry_point param_file : String) : String :=
  SLURM_BATCH_TEMPLATE (account_or_qos partition) partition job_name
    stdout_log_path memory_string num_gpus num_cpus
    (match conda_config with
     | some c => CondaConfiguration.sbatch_lines c
     | none => "")
    (match spack_config with
     | some c => SpackConfiguration.sbatch_lines c
     | none => "")
    working_directory entry_point param_file

/-- An observable side effect of `run_entry_point`: temporary-directory
creation/removal (`temppathlib.TmpDirIfNecessary`), the script file write,
the diagnostic `print`, and the `subprocess.run(["sbatch", ...])` call. -/
inductive Effect
  | mkTmpDir
  | writeFile (path : String) (content : String)
  | echoOut (content : String)
  | runCmd (cmd : List String)
  | rmTmpDir
deriving DecidableEq, Repr

/-- The keyword arguments of `SlurmPythonRunner.run_entry_point`. -/
structure RunArgs where
  entry_point_name : String
  param_file : String
  partition : String
  working_directory : String
  memory_request : MemoryAmount
  num_gpus : Nat := 0
  num_cpus : Nat := 1
  job_name : String
  slurm_script_path : Option String := none
  echo_template : Bool := false
deriving DecidableEq, Repr

/-- `SlurmPythonRunner.run_entry_point`, as the list of side effects it
performs and its outcome.  `temppathlib.TmpDirIfNecessary` is a context
manager: when no script path is supplied it creates a temporary directory on
entry and removes it on exit — also when the body raises; when a path is
supplied it neither creates nor removes anything.  `write_ok` models the
script file write and `sbatch_ok` the exit status of the `sbatch` call made
with `check=True` (a non-zero status raises).  The temporary directory's
name is abstracted as `<tmpdir>`. -/
def run_entry_point (runner : SlurmPythonRunner) (args : RunArgs)
    (write_ok : Bool) (sbatch_ok : Bool) :
    List Effect × Except String Unit :=
  match job_log_directory runner.log_base_directory args.job_name with
  | .error e => ([], .error e)
  | .ok jld =>
    let usingTmp := args.slurm_script_path.isNone
    let enter : List Effect := if usingTmp then [.mkTmpDir] else []
    let cleanup : List Effect := if usingTmp then [.rmTmpDir] else []
    let script_path :=
      match args.slurm_script_path with
      | some p => p
      | none => "<tmpdir>/" ++ args.job_name ++ ".sbatch"
    match to_slurm_memory_string args.memory_request with
    | .error e => (enter ++ cleanup, .error e)
    | .ok memory_string =>
      let content := rendered_script runner.conda_config runner.spack_config
        args.partition args.job_name (jld ++ "/" ++ args.job_name ++ ".log")
        memory_string args.num_gpus args.num_cpus
        args.working_directory args.entry_point_name args.param_file
      if write_ok then
        let echoEffects : List Effect :=
          if args.echo_template then [.echoOut content] else []
        (enter ++ [.writeFile script_path content] ++ echoEffects
           ++ [.runCmd ["sbatch", script_path]] ++ cleanup,
         if sbatch_ok then .ok () else .error "sbatch failed")
      else
        (enter ++ [.writeFile script_path content] ++ cleanup,
         .error "write failed")

end slurm_run_python

/-! Line-structure machinery: a string whose characters are
`joinLines L` splits on `'\n'` into exactly the pieces `L`. -/

/-- Join line pieces with a newline between consecutive pieces (the inverse
of splitting on `'\n'`). -/
def joinLines : List (List Char) → List Char
  | [] => []
  | [x] => x
  | x :: y :: xs => x ++ '\n' :: joinLines (y :: xs)

theorem joinLines_append {A B : List (List Char)} (hA : A ≠ []) (hB : B ≠ []) :
    joinLines (A ++ B) = joinLines A ++ '\n' :: joinLines B := by
  induction A with
  | nil => cases hA rfl
  | cons x xs ih =>
    cases xs with
    | nil =>
      cases B with
      | nil => cases hB rfl
      | cons b bs => simp [joinLines]
    | cons y ys =>
      rw [List.cons_append, List.cons_append]
      rw [joinLines, joinLines]
      rw [← List.cons_append, ih (by simp)]
      simp [List.append_assoc]

theorem pySplitChar_joinLines {L : List (List Char)} (hne : L ≠ [])
    (h : ∀ x ∈ L, '\n' ∉ x) :
    pySplitChar '\n' (joinLines L) = L := by
  induction L with
  | nil => cases hne rfl
  | cons x xs ih =>
    cases xs with
    | nil =>
      rw [joinLines, pySplitChar_of_not_mem (h x (by simp))]
    | cons y ys =>
      rw [joinLines, pySplitChar_append_cons _ (h x (by simp))]
      rw [ih (by simp) (fun z hz => h z (List.mem_cons_of_mem _ hz))]

/-- The characters of a newline-join are the `joinLines` of the pieces'
characters. -/
theorem data_pyJoin (L : List String) :
    (pyJoin "\n" L).data = joinLines (L.map String.data) := by
  induction L with
  | nil => rfl
  | cons x xs ih =>
    cases xs with
    | nil => rfl
    | cons y ys =>
      have hnl : "\n".data = ['\n'] := rfl
      rw [pyJoin, String.data_append, String.data_append, ih]
      rw [List.map_cons, List.map_cons, List.map_cons, joinLines]
      simp [hnl, List.append_assoc]

/-- Two lists differing on an initial segment are different. -/
theorem ne_of_take {l1 l2 : List Char} (n : Nat)
    (h : l1.take n ≠ l2.take n) : l1 ≠ l2 :=
  fun he => h (he ▸ rfl)

/-! The individual script lines produced by the activation snippets, as
character lists. -/

/-- The conda `source` line of a rendered snippet. -/
def condaSrcLine (conda_base_path : String) : List Char :=
  "source \"".data ++ conda_base_path.data ++ "\"/etc/profile.d/conda.sh".data

/-- The conda `activate` line of a rendered snippet. -/
def condaActLine (conda_environment : String) : List Char :=
  "conda activate ".data ++ conda_environment.data

/-- The Spack `setup-env.sh` source line of a rendered snippet. -/
def spackSrcLine (spack_root : String) : List Char :=
  ". \"".data ++ spack_root.data ++ "\"/share/spack/setup-env.sh".data

/-- The Spack environment-activation line of a rendered snippet. -/
def spackEnvLine (spack_environment : String) : List Char :=
  "spack env activate ".data ++ spack_environment.data

/-- A Spack package-load line of a rendered snippet. -/
def spackLoadLine (p : SpackPackage) : List Char :=
  "spack load ".data ++ p.package_name.data ++ "@".data ++ p.version.data

/-- The conda snippet consists (line-wise) of an empty line, the source
line, the activate line, and a trailing empty piece (the snippet starts and
ends with a newline). -/
theorem conda_sbatch_lines_data (cc : CondaConfiguration) :
    (slurm_run_python.CondaConfiguration.sbatch_lines cc).data =
      joinLines [[], condaSrcLine cc.conda_base_path,
                 condaActLine cc.conda_environment, []] := by
  simp [slurm_run_python.CondaConfiguration.sbatch_lines,
    slurm_run_python.CONDA_SBATCH_TEMPLATE, String.data_append, joinLines,
    condaSrcLine, condaActLine, List.append_assoc]

/-- The Spack snippet in the environment variant, line-wise. -/
theorem spack_sbatch_lines_env_data (c : SpackConfiguration) (e : String)
    (hc : c.spack_environment = some e) (he : e ≠ "") :
    (slurm_run_python.SpackConfiguration.sbatch_lines c).data =
      joinLines [[], spackSrcLine c.spack_root, [], [],
                 spackEnvLine e, [], [], []] := by
  have htruthy : pyTruthyStr (some e) = true := by simp [pyTruthyStr, he]
  simp [slurm_run_python.SpackConfiguration.sbatch_lines, htruthy,
    slurm_run_python.SPACK_COMMON_TEMPLATE,
    slurm_run_python.SPACK_ENVIRONMENT_TEMPLATE, hc, Option.getD_some,
    pyJoin, String.data_append, joinLines,
    spackSrcLine, spackEnvLine, List.append_assoc]

/-- The Spack snippet in the package variant, line-wise: one load line per
package, in order. -/
theorem spack_sbatch_lines_pkgs_data (c : SpackConfiguration)
    (l : List SpackPackage)
    (henv : pyTruthyStr c.spack_environment = false)
    (hp : c.spack_packages = some l) (hl : l ≠ []) :
    (slurm_run_python.SpackConfiguration.sbatch_lines c).data =
      joinLines ([[], spackSrcLine c.spack_root, []]
        ++ l.map spackLoadLine ++ [[], []]) := by
  have hload : ∀ p : SpackPackage,
      ("spack load " ++ slurm_run_python.SpackPackage.str p).data = spackLoadLine p := by
    intro p
    simp [slurm_run_python.SpackPackage.str, String.data_append, spackLoadLine,
      List.append_assoc]
  have hmap : (l.map (fun p => "spack load " ++ slurm_run_python.SpackPackage.str p)).map
      String.data = l.map spackLoadLine := by
    rw [List.map_map]
    exact List.map_congr_left (fun p _ => hload p)
  have hmapne : List.map spackLoadLine l ≠ [] := by simp [hl]
  have hjoin : joinLines ([[], spackSrcLine c.spack_root, []]
      ++ l.map spackLoadLine ++ [[], []]) =
      (joinLines [[], spackSrcLine c.spack_root, []] ++ '\n' ::
        joinLines (l.map spackLoadLine)) ++ '\n' :: joinLines [[], []] := by
    rw [joinLines_append (by simp) (by simp)]
    rw [joinLines_append (by simp) hmapne]
  simp only [slurm_run_python.SpackConfiguration.sbatch_lines, henv,
    Bool.false_eq_true, if_false, hp, Option.getD_some,
    slurm_run_python.SPACK_COMMON_TEMPLATE, pyJoin, String.data_append]
  rw [data_pyJoin, hmap, hjoin]
  simp [joinLines, spackSrcLine, List.append_assoc]

/-- `Nat.digitChar` never produces a newline. -/
theorem digitChar_ne_newline (m : Nat) : Nat.digitChar m ≠ '\n' := by
  match m with
  | 0 => decide
  | 1 => decide
  | 2 => decide
  | 3 => decide
  | 4 => decide
  | 5 => decide
  | 6 => decide
  | 7 => decide
  | 8 => decide
  | 9 => decide
  | 10 => decide
  | 11 => decide
  | 12 => decide
  | 13 => decide
  | 14 => decide
  | 15 => decide
  | n + 16 =>
    show Nat.digitChar (n + 16) ≠ '\n'
    unfold Nat.digitChar
    repeat rw [if_neg (by omega)]
    decide

theorem toDigitsCore_no_newline (b : Nat) :
    ∀ (fuel n : Nat) (l : List Char), '\n' ∉ l →
      '\n' ∉ Nat.toDigitsCore b fuel n l := by
  intro fuel
  induction fuel with
  | zero =>
    intro n l hl
    simpa [Nat.toDigitsCore] using hl
  | succ f ih =>
    intro n l hl
    rw [Nat.toDigitsCore]
    split
    · simp only [List.mem_cons, not_or]
      exact ⟨fun h => digitChar_ne_newline _ h.symm, hl⟩
    · apply ih
      simp only [List.mem_cons, not_or]
      exact ⟨fun h => digitChar_ne_newline _ h.symm, hl⟩

/-- The decimal rendering of a natural number contains no newline. -/
theorem no_newline_toString_nat (n : Nat) : '\n' ∉ (toString n).data := by
  have h : toString n = (Nat.toDigits 10 n).asString := rfl
  rw [h, Nat.toDigits]
  exact toDigitsCore_no_newline 10 (n + 1) n [] (by simp)

/-- The fixed lines of the rendered submission script before the conda
block, as character lists. -/
def templateHeadLines (acc p jn log mem : String) (g c : Nat) : List (List Char) :=
  ["#!/usr/bin/env bash".data, [], acc.data,
   "#SBATCH --partition=".data ++ p.data,
   "#SBATCH --job-name=".data ++ jn.data,
   "#SBATCH --output=".data ++ log.data,
   "#SBATCH --mem=".data ++ mem.data,
   "#SBATCH --ntasks=1".data,
   "#SBATCH --gpus-per-task=".data ++ (toString g).data,
   "#SBATCH --cpus-per-task=".data ++ (toString c).data,
   [], "set -euo pipefail".data, [],
   "# This is needed because SLURM jobs are run from a non-interactive shell,".data,
   "# but conda expects PS1 (the prompt variable) to be set.".data,
   "if [[ -z ${PS1+x} ]]".data,
   "  then".data,
   "    export PS1=\"\"".data,
   "fi".data, []]

/-- The fixed lines of the rendered submission script after the spack
block, as character lists. -/
def templateTailLines (wd ep pf : String) : List (List Char) :=
  [[], "cd ".data ++ wd.data,
   "python -m ".data ++ ep.data ++ " ".data ++ pf.data, []]

set_option maxRecDepth 8000 in
/-- The rendered script is the newline-join of: the fixed head lines, the
conda block pieces, the spack block pieces, and the fixed tail lines. -/
theorem data_SLURM_BATCH_TEMPLATE (acc p jn log mem : String) (g c : Nat)
    (cl sl wd ep pf : String) (CL SL : List (List Char))
    (hcl : cl.data = joinLines CL) (hCL : CL ≠ [])
    (hsl : sl.data = joinLines SL) (hSL : SL ≠ []) :
    (slurm_run_python.SLURM_BATCH_TEMPLATE acc p jn log mem g c cl sl wd ep pf).data
      = joinLines (templateHeadLines acc p jn log mem g c ++ CL ++ SL
          ++ templateTailLines wd ep pf) := by
  have hsplit : joinLines (templateHeadLines acc p jn log mem g c ++ CL ++ SL
      ++ templateTailLines wd ep pf) =
      ((joinLines (templateHeadLines acc p jn log mem g c) ++ '\n' :: joinLines CL)
        ++ '\n' :: joinLines SL) ++ '\n' :: joinLines (templateTailLines wd ep pf) := by
    rw [joinLines_append (by simp [templateHeadLines]) (by simp [templateTailLines])]
    rw [joinLines_append (by simp [templateHeadLines]) hSL]
    rw [joinLines_append (by simp [templateHeadLines]) hCL]
  rw [hsplit]
  simp [slurm_run_python.SLURM_BATCH_TEMPLATE, String.data_append, hcl, hsl,
    templateHeadLines, templateTailLines, joinLines, List.append_assoc]

theorem not_mem_append {c : Char} {a b : List Char} (ha : c ∉ a) (hb : c ∉ b) :
    c ∉ a ++ b := by
  simp [List.mem_append, ha, hb]

theorem no_newline_templateHeadLines (acc p jn log mem : String) (g c : Nat)
    (hacc : '\n' ∉ acc.data) (hp : '\n' ∉ p.data) (hjn : '\n' ∉ jn.data)
    (hlog : '\n' ∉ log.data) (hmem : '\n' ∉ mem.data) :
    ∀ x ∈ templateHeadLines acc p jn log mem g c, '\n' ∉ x := by
  intro x hx
  simp only [templateHeadLines, List.mem_cons, List.not_mem_nil, or_false] at hx
  rcases hx with rfl|rfl|rfl|rfl|rfl|rfl|rfl|rfl|rfl|rfl|rfl|rfl|rfl|rfl|rfl|rfl|rfl|rfl|rfl|rfl
  · decide
  · simp
  · exact hacc
  · exact not_mem_append (by decide) hp
  · exact not_mem_append (by decide) hjn
  · exact not_mem_append (by decide) hlog
  · exact not_mem_append (by decide) hmem
  · decide
  · exact not_mem_append (by decide) (no_newline_toString_nat g)
  · exact not_mem_append (by decide) (no_newline_toString_nat c)
  · simp
  · decide
  · simp
  · decide
  · decide
  · decide
  · decide
  · decide
  · decide
  · simp

theorem no_newline_templateTailLines (wd ep pf : String)
    (hwd : '\n' ∉ wd.data) (hep : '\n' ∉ ep.data) (hpf : '\n' ∉ pf.data) :
    ∀ x ∈ templateTailLines wd ep pf, '\n' ∉ x := by
  intro x hx
  simp only [templateTailLines, List.mem_cons, List.not_mem_nil, or_false] at hx
  rcases hx with rfl|rfl|rfl|rfl
  · simp
  · exact not_mem_append (by decide) hwd
  · exact not_mem_append (not_mem_append (not_mem_append (by decide) hep) (by decide)) hpf
  · simp

theorem no_newline_account_or_qos (p : String) (hp : '\n' ∉ p.data) :
    '\n' ∉ (slurm_run_python.account_or_qos p).data := by
  unfold slurm_run_python.account_or_qos
  split <;> (rw [String.data_append]; exact not_mem_append (by decide) hp)

/-- The line pieces contributed by the conda block of the rendered script
(the template splices `""` when no configuration is present). -/
def condaBlockLines : Option CondaConfiguration → List (List Char)
  | none => [[]]
  | some cc => [[], condaSrcLine cc.conda_base_path,
                condaActLine cc.conda_environment, []]

/-- The line pieces contributed by the Spack block of the rendered script. -/
def spackBlockLines : Option SpackConfiguration → List (List Char)
  | none => [[]]
  | some c =>
    if pyTruthyStr c.spack_environment then
      [[], spackSrcLine c.spack_root, [], [],
       spackEnvLine (c.spack_environment.getD ""), [], [], []]
    else
      [[], spackSrcLine c.spack_root, []]
        ++ (c.spack_packages.getD []).map spackLoadLine ++ [[], []]

theorem condaBlockLines_ne_nil (cc : Option CondaConfiguration) :
    condaBlockLines cc ≠ [] := by
  cases cc <;> simp [condaBlockLines]

theorem spackBlockLines_ne_nil (sc : Option SpackConfiguration) :
    spackBlockLines sc ≠ [] := by
  cases sc with
  | none => simp [spackBlockLines]
  | some c =>
    rw [spackBlockLines]
    split <;> simp

theorem conda_block_data (cc : Option CondaConfiguration) :
    (match cc with
     | some c => slurm_run_python.CondaConfiguration.sbatch_lines c
     | none => "").data = joinLines (condaBlockLines cc) := by
  cases cc with
  | none => rfl
  | some c => exact conda_sbatch_lines_data c

theorem spack_block_data (sc : Option SpackConfiguration)
    (hv : ∀ c, sc = some c →
      pyTruthyStr c.spack_environment ≠ pyTruthyList c.spack_packages) :
    (match sc with
     | some c => slurm_run_python.SpackConfiguration.sbatch_lines c
     | none => "").data = joinLines (spackBlockLines sc) := by
  cases sc with
  | none => rfl
  | some c =>
    by_cases he : pyTruthyStr c.spack_environment = true
    · obtain ⟨e, hce⟩ : ∃ e, c.spack_environment = some e := by
        cases hc : c.spack_environment with
        | none => rw [hc] at he; simp [pyTruthyStr] at he
        | some e => exact ⟨e, rfl⟩
      have hene : e ≠ "" := by
        rw [hce] at he
        simpa [pyTruthyStr] using he
      show (slurm_run_python.SpackConfiguration.sbatch_lines c).data = _
      rw [spack_sbatch_lines_env_data c e hce hene]
      have he' : pyTruthyStr (some e) = true := by simp [pyTruthyStr, hene]
      simp [spackBlockLines, hce, he']
    · have hef : pyTruthyStr c.spack_environment = false := by simpa using he
      have hpt : pyTruthyList c.spack_packages = true := by
        have hne := hv c rfl
        rw [hef] at hne
        cases hb : pyTruthyList c.spack_packages with
        | false => rw [hb] at hne; exact absurd rfl hne
        | true => rfl
      obtain ⟨l, hl, hlne⟩ : ∃ l, c.spack_packages = some l ∧ l ≠ [] := by
        cases hp : c.spack_packages with
        | none => rw [hp] at hpt; simp [pyTruthyList] at hpt
        | some l =>
          rw [hp] at hpt
          refine ⟨l, rfl, ?_⟩
          simpa [pyTruthyList] using hpt
      show (slurm_run_python.SpackConfiguration.sbatch_lines c).data = _
      rw [spack_sbatch_lines_pkgs_data c l hef hl hlne]
      simp [spackBlockLines, hef, hl]

theorem no_newline_condaBlockLines (cc : Option CondaConfiguration)
    (h : ∀ c, cc = some c →
      '\n' ∉ c.conda_base_path.data ∧ '\n' ∉ c.conda_environment.data) :
    ∀ x ∈ condaBlockLines cc, '\n' ∉ x := by
  intro x hx
  cases cc with
  | none =>
    simp only [condaBlockLines, List.mem_cons, List.not_mem_nil, or_false] at hx
    subst hx
    simp
  | some c =>
    obtain ⟨hb, he⟩ := h c rfl
    simp only [condaBlockLines, List.mem_cons, List.not_mem_nil, or_false] at hx
    rcases hx with rfl|rfl|rfl|rfl
    · simp
    · exact not_mem_append (not_mem_append (by decide) hb) (by decide)
    · exact not_mem_append (by decide) he
    · simp

theorem no_newline_spackBlockLines (sc : Option SpackConfiguration)
    (h : ∀ c, sc = some c → '\n' ∉ c.spack_root.data ∧
      (∀ e, c.spack_environment = some e → '\n' ∉ e.data) ∧
      (∀ l, c.spack_packages = some l → ∀ p ∈ l,
        '\n' ∉ p.package_name.data ∧ '\n' ∉ p.version.data)) :
    ∀ x ∈ spackBlockLines sc, '\n' ∉ x := by
  intro x hx
  cases sc with
  | none =>
    simp only [spackBlockLines, List.mem_cons, List.not_mem_nil, or_false] at hx
    subst hx
    simp
  | some c =>
    obtain ⟨hr, henv, hpkg⟩ := h c rfl
    rw [spackBlockLines] at hx
    split at hx
    · simp only [List.mem_cons, List.not_mem_nil, or_false] at hx
      rcases hx with rfl|rfl|rfl|rfl|rfl|rfl|rfl|rfl
      · simp
      · exact not_mem_append (not_mem_append (by decide) hr) (by decide)
      · simp
      · simp
      · apply not_mem_append (by decide)
        cases hce : c.spack_environment with
        | none => simp
        | some e =>
          simp only [Option.getD_some]
          exact henv e hce
      · simp
      · simp
      · simp
    · simp only [List.mem_append, List.mem_cons, List.not_mem_nil, or_false,
        List.mem_map] at hx
      rcases hx with ((rfl|rfl|rfl)|⟨p, hpmem, rfl⟩)|(rfl|rfl)
      · simp
      · exact not_mem_append (not_mem_append (by decide) hr) (by decide)
      · simp
      · cases hps : c.spack_packages with
        | none => rw [hps] at hpmem; simp at hpmem
        | some l =>
          rw [hps] at hpmem
          simp only [Option.getD_some] at hpmem
          obtain ⟨h1, h2⟩ := hpkg l hps p hpmem
          exact not_mem_append
            (not_mem_append (not_mem_append (by decide) h1) (by decide)) h2
      · simp
      · simp

/-- Full line decomposition of the rendered submission script, for any
combination of present/absent conda and Spack configurations whose string
fields are newline-free and whose Spack configuration satisfies the
constructor invariant. -/
theorem lines_rendered_script (cc : Option CondaConfiguration)
    (sc : Option SpackConfiguration)
    (partition jn log mem wd ep pf : String) (g c : Nat)
    (hpart : '\n' ∉ partition.data) (hjn : '\n' ∉ jn.data)
    (hlog : '\n' ∉ log.data) (hmem : '\n' ∉ mem.data)
    (hwd : '\n' ∉ wd.data) (hep : '\n' ∉ ep.data) (hpf : '\n' ∉ pf.data)
    (hcc : ∀ c0, cc = some c0 →
      '\n' ∉ c0.conda_base_path.data ∧ '\n' ∉ c0.conda_environment.data)
    (hsc : ∀ c0, sc = some c0 → '\n' ∉ c0.spack_root.data ∧
      (∀ e, c0.spack_environment = some e → '\n' ∉ e.data) ∧
      (∀ l, c0.spack_packages = some l → ∀ p ∈ l,
        '\n' ∉ p.package_name.data ∧ '\n' ∉ p.version.data))
    (hv : ∀ c0, sc = some c0 →
      pyTruthyStr c0.spack_environment ≠ pyTruthyList c0.spack_packages) :
    pySplitChar '\n'
      (slurm_run_python.rendered_script cc sc partition jn log mem g c wd ep pf).data =
      templateHeadLines (slurm_run_python.account_or_qos partition) partition jn log mem g c
        ++ condaBlockLines cc ++ spackBlockLines sc ++ templateTailLines wd ep pf := by
  unfold slurm_run_python.rendered_script
  rw [data_SLURM_BATCH_TEMPLATE _ _ _ _ _ _ _ _ _ _ _ _
    (condaBlockLines cc) (spackBlockLines sc)
    (conda_block_data cc) (condaBlockLines_ne_nil cc)
    (spack_block_data sc hv) (spackBlockLines_ne_nil sc)]
  apply pySplitChar_joinLines
  · simp [templateHeadLines]
  · intro x hx
    rcases List.mem_append.mp hx with hx | hx
    · rcases List.mem_append.mp hx with hx | hx
      · rcases List.mem_append.mp hx with hx | hx
        · exact no_newline_templateHeadLines _ _ _ _ _ _ _
            (no_newline_account_or_qos _ hpart) hpart hjn hlog hmem x hx
        · exact no_newline_condaBlockLines cc hcc x hx
      · exact no_newline_spackBlockLines sc hsc x hx
    · exact no_newline_templateTailLines _ _ _ hwd hep hpf x hx

/-! The claims. -/

/-- C1: the log-directory resolver splits the job name on `/`; for a single
component it returns the base directory unchanged, and for more than one
component the claim (and the function's own docstring) say it returns the
base joined with every component but the last.  The code instead appends the
sliced component *list* as a single `Path` constructor argument
(`path_components.extend([parts[:-1]])`), so `Path(*path_components)` raises
`TypeError` on every slashed job name: `"foo/bar/baz"` with base
`"/home/fred/logs"` raises instead of yielding `"/home/fred/logs/foo/bar"`. -/
theorem C1_log_directory_resolver :
    slurm_run_python.job_log_directory "/home/fred/logs" "baz" =
      .ok "/home/fred/logs" ∧
    slurm_run_python.job_log_directory "/home/fred/logs" "foo/bar/baz" =
      .error "TypeError: argument should be a str or an os.PathLike object, not list" ∧
    ∀ r : String,
      slurm_run_python.job_log_directory "/home/fred/logs" "foo/bar/baz" ≠ .ok r := by
  refine ⟨by rfl, by rfl, fun r h => ?_⟩
  rw [show slurm_run_python.job_log_directory "/home/fred/logs" "foo/bar/baz" =
    .error "TypeError: argument should be a str or an os.PathLike object, not list"
    from by rfl] at h
  exact Except.noConfusion h

/-- C2: constructing a `SpackConfiguration` fails when both a (non-empty)
environment and a non-empty package list are supplied and when neither is
supplied; every constructed configuration has exactly one of the two
(Python-truthy environment xor Python-truthy package list); and
configuration resolution with both keys present raises the error naming
both keys as mutually exclusive. -/
theorem C2_spack_configuration_invariant :
    (∀ (root e : String) (pkgs : List SpackPackage), e ≠ "" → pkgs ≠ [] →
      spack.SpackConfiguration.create root (some e) (some pkgs) =
        .error ("A Spack configuration requires either an environment or a list of packages, "
          ++ "but not both.`")) ∧
    (∀ root : String,
      spack.SpackConfiguration.create root none none =
        .error ("A Spack configuration requires either an environment or a list of packages, "
          ++ "but not both.`") ∧
      spack.SpackConfiguration.create root none (some []) =
        .error ("A Spack configuration requires either an environment or a list of packages, "
          ++ "but not both.`") ∧
      spack.SpackConfiguration.create root (some "") none =
        .error ("A Spack configuration requires either an environment or a list of packages, "
          ++ "but not both.`")) ∧
    (∀ (root : String) (env : Option String) (pkgs : Option (List SpackPackage))
      (c : SpackConfiguration),
      spack.SpackConfiguration.create root env pkgs = .ok c →
      pyTruthyStr c.spack_environment ≠ pyTruthyList c.spack_packages) ∧
    (∀ params : Parameters, params.spack_environment.isSome →
      params.spack_packages.isSome →
      spack.SpackConfiguration.from_parameters params =
        .error "spack_environment and spack_packages are mutually exclusive") := by
  refine ⟨?_, ?_, ?_, ?_⟩
  · intro root e pkgs he hp
    have h1 : (e == "") = false := beq_eq_false_iff_ne.mpr he
    have h2 : pkgs.isEmpty = false := by
      cases pkgs with
      | nil => exact absurd rfl hp
      | cons a t => rfl
    simp [spack.SpackConfiguration.create, pyTruthyStr, pyTruthyList, h1, h2]
  · intro root
    exact ⟨rfl, rfl, rfl⟩
  · intro root env pkgs c h
    rw [spack.SpackConfiguration.create] at h
    split at h
    · exact absurd h (by simp)
    · rename_i hcond
      simp only [Except.ok.injEq] at h
      subst h
      simpa using hcond
  · intro params h1 h2
    rw [spack.SpackConfiguration.from_parameters]
    simp [h1, h2]

/-- Witness for C2 at concrete inputs. -/
theorem C2_spack_configuration_invariant_witness :
    spack.SpackConfiguration.create "/r" (some "e")
        (some [{ package_name := "a", version := "1" }]) =
      .error ("A Spack configuration requires either an environment or a list of packages, "
        ++ "but not both.`") ∧
    spack.SpackConfiguration.from_parameters
        { spack_environment := some "e", spack_packages := some ["a@1"],
          spack_root := some "/r" } =
      .error "spack_environment and spack_packages are mutually exclusive" ∧
    pyTruthyStr (SpackConfiguration.mk "/r" (some "e") (some [])).spack_environment ≠
      pyTruthyList (SpackConfiguration.mk "/r" (some "e") (some [])).spack_packages :=
  ⟨C2_spack_configuration_invariant.1 "/r" "e" [{ package_name := "a", version := "1" }]
      (by decide) (by decide),
   C2_spack_configuration_invariant.2.2.2
      { spack_environment := some "e", spack_packages := some ["a@1"],
        spack_root := some "/r" } (by decide) (by decide),
   C2_spack_configuration_invariant.2.2.1 "/r" (some "e") (some [])
      (SpackConfiguration.mk "/r" (some "e") (some [])) (by rfl)⟩

/-- C3: `SpackPackage.parse` succeeds exactly when the specifier contains
exactly one `@`, returning the text before it as the name and the text
after it as the version; otherwise it fails with the error naming the
offending specifier. -/
theorem C3_spack_package_parse (s : String) :
    (s.data.count '@' = 1 →
      ∃ name ver : String,
        spack.SpackPackage.parse s = .ok { package_name := name, version := ver } ∧
        s = name ++ "@" ++ ver ∧ '@' ∉ name.data ∧ '@' ∉ ver.data) ∧
    (s.data.count '@' ≠ 1 →
      spack.SpackPackage.parse s =
        .error ("Expected a package specified of the form packaged@version but got "
          ++ s)) := by
  constructor
  · intro h1
    have hlen : (pySplitChar '@' s.data).length = 2 := by
      rw [length_pySplitChar, h1]
    obtain ⟨a, b, hab⟩ : ∃ a b, pySplitChar '@' s.data = [a, b] := by
      cases hsp : pySplitChar '@' s.data with
      | nil => rw [hsp] at hlen; simp at hlen
      | cons x t =>
        cases t with
        | nil => rw [hsp] at hlen; simp at hlen
        | cons y u =>
          cases u with
          | nil => exact ⟨x, y, rfl⟩
          | cons z v => rw [hsp] at hlen; simp at hlen
    obtain ⟨hs, ha, hb⟩ := pySplitChar_eq_pair hab
    refine ⟨String.mk a, String.mk b, ?_, ?_, ha, hb⟩
    · simp only [spack.SpackPackage.parse, hab]
    · apply String.ext
      simp [String.data_append, hs]
  · intro h1
    have hlen := length_pySplitChar '@' s.data
    cases hsp : pySplitChar '@' s.data with
    | nil => simp only [spack.SpackPackage.parse, hsp]
    | cons x t =>
      cases t with
      | nil => simp only [spack.SpackPackage.parse, hsp]
      | cons y u =>
        cases u with
        | nil =>
          rw [hsp] at hlen
          simp only [List.length_cons, List.length_nil] at hlen
          exact absurd (by omega) h1
        | cons z v => simp only [spack.SpackPackage.parse, hsp]

/-- Witness for C3 at concrete inputs. -/
theorem C3_spack_package_parse_witness :
    (∃ name ver : String,
      spack.SpackPackage.parse "cuda@9.0.176" =
        .ok { package_name := name, version := ver } ∧
      "cuda@9.0.176" = name ++ "@" ++ ver ∧ '@' ∉ name.data ∧ '@' ∉ ver.data) ∧
    spack.SpackPackage.parse "a@b@c" =
      .error ("Expected a package specified of the form packaged@version but got "
        ++ "a@b@c") :=
  ⟨(C3_spack_package_parse "cuda@9.0.176").1 (by decide),
   (C3_spack_package_parse "a@b@c").2 (by decide)⟩

/-- C4: the job runner emits a quality-of-service directive referencing the
partition exactly when the partition is `"ephemeral"` or `"scavenge"`, and
an account directive referencing the partition otherwise. -/
theorem C4_partition_directive (partition : String) :
    (slurm_run_python.account_or_qos partition = "#SBATCH --qos=" ++ partition ↔
      partition = "ephemeral" ∨ partition = "scavenge") ∧
    (slurm_run_python.account_or_qos partition = "#SBATCH --account=" ++ partition ↔
      ¬(partition = "ephemeral" ∨ partition = "scavenge")) := by
  have hne : ("#SBATCH --qos=" ++ partition) ≠ ("#SBATCH --account=" ++ partition) := by
    intro h
    have hl := congrArg String.length h
    rw [String.length_append, String.length_append,
      show ("#SBATCH --qos=").length = 14 from rfl,
      show ("#SBATCH --account=").length = 18 from rfl] at hl
    omega
  by_cases hcond : partition = "scavenge" ∨ partition = "ephemeral"
  · have hq : slurm_run_python.account_or_qos partition =
        "#SBATCH --qos=" ++ partition := by
      rw [slurm_run_python.account_or_qos, if_pos hcond]
    rw [hq]
    constructor
    · exact ⟨fun _ => Or.symm hcond, fun _ => rfl⟩
    · constructor
      · intro h
        exact absurd h hne
      · intro h
        exact absurd (Or.symm hcond) h
  · have ha : slurm_run_python.account_or_qos partition =
        "#SBATCH --account=" ++ partition := by
      rw [slurm_run_python.account_or_qos, if_neg hcond]
    rw [ha]
    constructor
    · constructor
      · intro h
        exact absurd h.symm hne
      · intro h
        exact absurd (Or.symm h) hcond
    · exact ⟨fun _ => fun h => hcond (Or.symm h), fun _ => rfl⟩

/-- Witness for C4 at concrete partitions. -/
theorem C4_partition_directive_witness :
    slurm_run_python.account_or_qos "ephemeral" = "#SBATCH --qos=" ++ "ephemeral" ∧
    slurm_run_python.account_or_qos "gaia" = "#SBATCH --account=" ++ "gaia" :=
  ⟨(C4_partition_directive "ephemeral").1.mpr (Or.inl rfl),
   (C4_partition_directive "gaia").2.mpr (by decide)⟩

/-- C5: for every memory amount over the four enumerated units the
formatter never fails and returns the magnitude immediately followed by the
unit's single letter; in particular 4 gigabytes → "4G",
512 kilobytes → "512K", 2 terabytes → "2T". -/
theorem C5_memory_string :
    (∀ (amount : Nat) (u : MemoryUnit),
      slurm.to_slurm_memory_string { amount := amount, unit := u } =
        .ok (toString amount ++
          (match u with
           | .kilobytes => "K"
           | .megabytes => "M"
           | .gigabytes => "G"
           | .terabytes => "T"))) ∧
    slurm.to_slurm_memory_string { amount := 4, unit := .gigabytes } = .ok "4G" ∧
    slurm.to_slurm_memory_string { amount := 512, unit := .kilobytes } = .ok "512K" ∧
    slurm.to_slurm_memory_string { amount := 2, unit := .terabytes } = .ok "2T" := by
  refine ⟨?_, by rfl, by rfl, by rfl⟩
  intro amount u
  cases u <;> rfl

/-- C10: the duplicated implementations in `spack.py`/`conda.py` and inside
`slurm_run_python.py` agree extensionally on every input. -/
theorem C10_duplicate_implementations_agree :
    (∀ s, spack.SpackPackage.parse s = slurm_run_python.SpackPackage.parse s) ∧
    (∀ p, spack.SpackPackage.str p = slurm_run_python.SpackPackage.str p) ∧
    (∀ (root : String) (env : Option String) (pkgs : Option (List SpackPackage)),
      spack.SpackConfiguration.create root env pkgs =
        slurm_run_python.SpackConfiguration.create root env pkgs) ∧
    (∀ params, spack.SpackConfiguration.from_parameters params =
      slurm_run_python.SpackConfiguration.from_parameters params) ∧
    (∀ c, spack.SpackConfiguration.sbatch_lines c =
      slurm_run_python.SpackConfiguration.sbatch_lines c) ∧
    (∀ params, conda.CondaConfiguration.from_parameters params =
      slurm_run_python.CondaConfiguration.from_parameters params) ∧
    (∀ c, conda.CondaConfiguration.sbatch_lines c =
      slurm_run_python.CondaConfiguration.sbatch_lines c) :=
  ⟨fun _ => rfl, fun _ => rfl, fun _ _ _ => rfl, fun _ => rfl, fun _ => rfl,
   fun _ => rfl, fun _ => rfl⟩

/-- C6: the rendered Spack snippet consists of the `setup-env.sh` source
line followed by either the single environment-activation line or one load
line per package in input order, followed by a trailing blank line (the
snippet's non-empty lines are exactly the content lines in order, and its
final line is empty). -/
theorem C6_spack_snippet_lines (c : SpackConfiguration)
    (hr : '\n' ∉ c.spack_root.data)
    (henv : ∀ e, c.spack_environment = some e → '\n' ∉ e.data)
    (hpkg : ∀ l, c.spack_packages = some l → ∀ p ∈ l,
      '\n' ∉ p.package_name.data ∧ '\n' ∉ p.version.data) :
    (∀ e, c.spack_environment = some e → e ≠ "" →
      (pySplitChar '\n' (spack.SpackConfiguration.sbatch_lines c).data).filter
          (fun x => !x.isEmpty) =
        [spackSrcLine c.spack_root, spackEnvLine e] ∧
      (pySplitChar '\n' (spack.SpackConfiguration.sbatch_lines c).data).getLast? =
        some []) ∧
    (pyTruthyStr c.spack_environment = false →
      ∀ l, c.spack_packages = some l → l ≠ [] →
      (pySplitChar '\n' (spack.SpackConfiguration.sbatch_lines c).data).filter
          (fun x => !x.isEmpty) =
        spackSrcLine c.spack_root :: l.map spackLoadLine ∧
      (pySplitChar '\n' (spack.SpackConfiguration.sbatch_lines c).data).getLast? =
        some []) := by
  have hdup : spack.SpackConfiguration.sbatch_lines c =
      slurm_run_python.SpackConfiguration.sbatch_lines c := rfl
  constructor
  · intro e hce hene
    have hlines : pySplitChar '\n' (spack.SpackConfiguration.sbatch_lines c).data =
        [[], spackSrcLine c.spack_root, [], [], spackEnvLine e, [], [], []] := by
      rw [hdup, spack_sbatch_lines_env_data c e hce hene]
      apply pySplitChar_joinLines (by simp)
      intro x hx
      simp only [List.mem_cons, List.not_mem_nil, or_false] at hx
      rcases hx with rfl|rfl|rfl|rfl|rfl|rfl|rfl|rfl
      · simp
      · exact not_mem_append (not_mem_append (by decide) hr) (by decide)
      · simp
      · simp
      · exact not_mem_append (by decide) (henv e hce)
      · simp
      · simp
      · simp
    rw [hlines]
    constructor
    · simp [spackSrcLine, spackEnvLine]
    · rfl
  · intro hef l hl hlne
    have hlines : pySplitChar '\n' (spack.SpackConfiguration.sbatch_lines c).data =
        [[], spackSrcLine c.spack_root, []] ++ l.map spackLoadLine ++ [[], []] := by
      rw [hdup, spack_sbatch_lines_pkgs_data c l hef hl hlne]
      apply pySplitChar_joinLines (by simp)
      intro x hx
      simp only [List.mem_append, List.mem_cons, List.not_mem_nil, or_false,
        List.mem_map] at hx
      rcases hx with ((rfl|rfl|rfl)|⟨p, hpmem, rfl⟩)|(rfl|rfl)
      · simp
      · exact not_mem_append (not_mem_append (by decide) hr) (by decide)
      · simp
      · obtain ⟨h1, h2⟩ := hpkg l hl p hpmem
        exact not_mem_append
          (not_mem_append (not_mem_append (by decide) h1) (by decide)) h2
      · simp
      · simp
    rw [hlines]
    constructor
    · have hfmap : (l.map spackLoadLine).filter (fun x => !x.isEmpty) =
          l.map spackLoadLine := by
        rw [List.filter_eq_self]
        intro x hx
        simp only [List.mem_map] at hx
        obtain ⟨p, _, rfl⟩ := hx
        simp [spackLoadLine]
      rw [List.filter_append, List.filter_append, hfmap]
      simp [spackSrcLine]
    · rw [List.getLast?_append]
      rfl

/-- Witness for C6: a concrete environment-variant configuration and a
concrete package-variant configuration. -/
theorem C6_spack_snippet_lines_witness :
    ((pySplitChar '\n'
        (spack.SpackConfiguration.sbatch_lines
          (SpackConfiguration.mk "/r" (some "env") (some []))).data).filter
        (fun x => !x.isEmpty) =
      [spackSrcLine "/r", spackEnvLine "env"] ∧
     (pySplitChar '\n'
        (spack.SpackConfiguration.sbatch_lines
          (SpackConfiguration.mk "/r" (some "env") (some []))).data).getLast? =
      some []) ∧
    ((pySplitChar '\n'
        (spack.SpackConfiguration.sbatch_lines
          (SpackConfiguration.mk "/r" none
            (some [SpackPackage.mk "cuda" "9.0.176"]))).data).filter
        (fun x => !x.isEmpty) =
      spackSrcLine "/r" ::
        [SpackPackage.mk "cuda" "9.0.176"].map spackLoadLine ∧
     (pySplitChar '\n'
        (spack.SpackConfiguration.sbatch_lines
          (SpackConfiguration.mk "/r" none
            (some [SpackPackage.mk "cuda" "9.0.176"]))).data).getLast? =
      some []) := by
  constructor
  · exact (C6_spack_snippet_lines (SpackConfiguration.mk "/r" (some "env") (some []))
      (by decide)
      (fun e h => by cases h; decide)
      (fun l h => by cases h; intro p hp; simp at hp)).1 "env" rfl (by decide)
  · exact (C6_spack_snippet_lines
      (SpackConfiguration.mk "/r" none (some [SpackPackage.mk "cuda" "9.0.176"]))
      (by decide)
      (fun e h => by cases h)
      (fun l h => by
        cases h
        intro p hp
        simp only [List.mem_singleton] at hp
        subst hp
        exact ⟨by decide, by decide⟩)).2
      rfl [SpackPackage.mk "cuda" "9.0.176"] rfl (by simp)

theorem head_line_ne_conda (partition jn log mem : String) (g c : Nat) :
    ∀ x ∈ templateHeadLines (slurm_run_python.account_or_qos partition)
        partition jn log mem g c,
      (∀ b, x ≠ condaSrcLine b) ∧ (∀ e, x ≠ condaActLine e) := by
  intro x hx
  simp only [templateHeadLines, List.mem_cons, List.not_mem_nil, or_false] at hx
  rcases hx with rfl|rfl|rfl|rfl|rfl|rfl|rfl|rfl|rfl|rfl|rfl|rfl|rfl|rfl|rfl|rfl|rfl|rfl|rfl|rfl
  all_goals refine ⟨fun b => ?_, fun e => ?_⟩
  all_goals first
    | (unfold slurm_run_python.account_or_qos
       split <;> simp [condaSrcLine, condaActLine, String.data_append]
       done)
    | (simp [condaSrcLine, condaActLine]
       done)

theorem tail_line_ne_conda (wd ep pf : String) :
    ∀ x ∈ templateTailLines wd ep pf,
      (∀ b, x ≠ condaSrcLine b) ∧ (∀ e, x ≠ condaActLine e) := by
  intro x hx
  simp only [templateTailLines, List.mem_cons, List.not_mem_nil, or_false] at hx
  rcases hx with rfl|rfl|rfl|rfl
  all_goals refine ⟨fun b => ?_, fun e => ?_⟩
  all_goals simp [condaSrcLine, condaActLine]

theorem spack_block_line_ne_conda (sc : Option SpackConfiguration) :
    ∀ x ∈ spackBlockLines sc,
      (∀ b, x ≠ condaSrcLine b) ∧ (∀ e, x ≠ condaActLine e) := by
  intro x hx
  cases sc with
  | none =>
    simp only [spackBlockLines, List.mem_cons, List.not_mem_nil, or_false] at hx
    subst hx
    exact ⟨fun b => by simp [condaSrcLine], fun e => by simp [condaActLine]⟩
  | some c =>
    rw [spackBlockLines] at hx
    split at hx
    · simp only [List.mem_cons, List.not_mem_nil, or_false] at hx
      rcases hx with rfl|rfl|rfl|rfl|rfl|rfl|rfl|rfl
      all_goals refine ⟨fun b => ?_, fun e => ?_⟩
      all_goals simp [condaSrcLine, condaActLine, spackSrcLine, spackEnvLine]
    · simp only [List.mem_append, List.mem_cons, List.not_mem_nil, or_false,
        List.mem_map] at hx
      rcases hx with ((rfl|rfl|rfl)|⟨p, hpmem, rfl⟩)|(rfl|rfl)
      all_goals refine ⟨fun b => ?_, fun e => ?_⟩
      all_goals simp [condaSrcLine, condaActLine, spackSrcLine, spackLoadLine]

/-- C7: in every rendering of the submission script, a present
CondaConfiguration contributes both the `conda.sh` source line and the
`conda activate` line with the source line immediately before the activate
line, and an absent CondaConfiguration contributes neither kind of line
anywhere in the script. -/
theorem C7_conda_lines_iff_present (cc : Option CondaConfiguration)
    (sc : Option SpackConfiguration)
    (partition jn log mem wd ep pf : String) (g c : Nat)
    (hpart : '\n' ∉ partition.data) (hjn : '\n' ∉ jn.data)
    (hlog : '\n' ∉ log.data) (hmem : '\n' ∉ mem.data)
    (hwd : '\n' ∉ wd.data) (hep : '\n' ∉ ep.data) (hpf : '\n' ∉ pf.data)
    (hcc : ∀ c0, cc = some c0 →
      '\n' ∉ c0.conda_base_path.data ∧ '\n' ∉ c0.conda_environment.data)
    (hsc : ∀ c0, sc = some c0 → '\n' ∉ c0.spack_root.data ∧
      (∀ e, c0.spack_environment = some e → '\n' ∉ e.data) ∧
      (∀ l, c0.spack_packages = some l → ∀ p ∈ l,
        '\n' ∉ p.package_name.data ∧ '\n' ∉ p.version.data))
    (hv : ∀ c0, sc = some c0 →
      pyTruthyStr c0.spack_environment ≠ pyTruthyList c0.spack_packages) :
    (∀ c0, cc = some c0 →
      ∃ pre post,
        pySplitChar '\n' (slurm_run_python.rendered_script cc sc partition jn log
            mem g c wd ep pf).data =
          pre ++ [condaSrcLine c0.conda_base_path,
                  condaActLine c0.conda_environment] ++ post) ∧
    (cc = none → ∀ b e,
      condaSrcLine b ∉ pySplitChar '\n'
        (slurm_run_python.rendered_script cc sc partition jn log mem g c wd ep pf).data ∧
      condaActLine e ∉ pySplitChar '\n'
        (slurm_run_python.rendered_script cc sc partition jn log mem g c wd ep pf).data) := by
  have hlines := lines_rendered_script cc sc partition jn log mem wd ep pf g c
    hpart hjn hlog hmem hwd hep hpf hcc hsc hv
  constructor
  · intro c0 hc0
    refine ⟨templateHeadLines (slurm_run_python.account_or_qos partition)
        partition jn log mem g c ++ [[]],
      [[]] ++ (spackBlockLines sc ++ templateTailLines wd ep pf), ?_⟩
    rw [hlines, hc0]
    simp [condaBlockLines, List.append_assoc]
  · intro hc0 b e
    rw [hlines, hc0]
    constructor
    · intro hmem0
      rcases List.mem_append.mp hmem0 with h | h
      · rcases List.mem_append.mp h with h | h
        · rcases List.mem_append.mp h with h | h
          · exact (head_line_ne_conda partition jn log mem g c _ h).1 b rfl
          · simp only [condaBlockLines, List.mem_cons, List.not_mem_nil,
              or_false] at h
            exact absurd h.symm (by simp [condaSrcLine])
        · exact (spack_block_line_ne_conda sc _ h).1 b rfl
      · exact (tail_line_ne_conda wd ep pf _ h).1 b rfl
    · intro hmem0
      rcases List.mem_append.mp hmem0 with h | h
      · rcases List.mem_append.mp h with h | h
        · rcases List.mem_append.mp h with h | h
          · exact (head_line_ne_conda partition jn log mem g c _ h).2 e rfl
          · simp only [condaBlockLines, List.mem_cons, List.not_mem_nil,
              or_false] at h
            exact absurd h.symm (by simp [condaActLine])
        · exact (spack_block_line_ne_conda sc _ h).2 e rfl
      · exact (tail_line_ne_conda wd ep pf _ h).2 e rfl

/-- Witness for C7: a concrete present configuration and the concrete
absent case. -/
theorem C7_conda_lines_iff_present_witness :
    (∃ pre post,
      pySplitChar '\n' (slurm_run_python.rendered_script
          (some (CondaConfiguration.mk "/opt/conda" "myenv")) none
          "gaia" "job" "/logs/job.log" "4G" 0 1 "/w" "pkg.mod" "/p").data =
        pre ++ [condaSrcLine "/opt/conda", condaActLine "myenv"] ++ post) ∧
    (∀ b e,
      condaSrcLine b ∉ pySplitChar '\n' (slurm_run_python.rendered_script
          none none "gaia" "job" "/logs/job.log" "4G" 0 1 "/w" "pkg.mod" "/p").data ∧
      condaActLine e ∉ pySplitChar '\n' (slurm_run_python.rendered_script
          none none "gaia" "job" "/logs/job.log" "4G" 0 1 "/w" "pkg.mod" "/p").data) := by
  constructor
  · exact (C7_conda_lines_iff_present
      (some (CondaConfiguration.mk "/opt/conda" "myenv")) none
      "gaia" "job" "/logs/job.log" "4G" "/w" "pkg.mod" "/p" 0 1
      (by decide) (by decide) (by decide) (by decide) (by decide) (by decide)
      (by decide)
      (fun c0 h => by cases h; exact ⟨by decide, by decide⟩)
      (fun c0 h => by cases h)
      (fun c0 h => by cases h)).1 (CondaConfiguration.mk "/opt/conda" "myenv") rfl
  · intro b e
    exact (C7_conda_lines_iff_present none none
      "gaia" "job" "/logs/job.log" "4G" "/w" "pkg.mod" "/p" 0 1
      (by decide) (by decide) (by decide) (by decide) (by decide) (by decide)
      (by decide)
      (fun c0 h => by cases h)
      (fun c0 h => by cases h)
      (fun c0 h => by cases h)).2 rfl b e

/-- Whether an effect is the diagnostic echo `print` of the rendered
template. -/
def isEchoEffect : slurm_run_python.Effect → Bool
  | .echoOut _ => true
  | _ => false

/-- C8: two runs of the job runner differing only in the echo flag perform
exactly the same effects apart from the diagnostic echo itself (same script
write, same `sbatch` invocation) and produce the same outcome. -/
theorem C8_echo_flag_no_effect (runner : slurm_run_python.SlurmPythonRunner)
    (args : slurm_run_python.RunArgs) (write_ok sbatch_ok : Bool) :
    ((slurm_run_python.run_entry_point runner { args with echo_template := true }
        write_ok sbatch_ok).1.filter (fun e => !isEchoEffect e) =
      (slurm_run_python.run_entry_point runner { args with echo_template := false }
        write_ok sbatch_ok).1.filter (fun e => !isEchoEffect e)) ∧
    (slurm_run_python.run_entry_point runner { args with echo_template := true }
        write_ok sbatch_ok).2 =
      (slurm_run_python.run_entry_point runner { args with echo_template := false }
        write_ok sbatch_ok).2 := by
  unfold slurm_run_python.run_entry_point
  cases hjld : slurm_run_python.job_log_directory runner.log_base_directory
      args.job_name with
  | error err => simp [hjld]
  | ok jld =>
    cases hms : slurm_run_python.to_slurm_memory_string args.memory_request with
    | error err => simp [hjld, hms]
    | ok ms =>
      cases write_ok with
      | false => simp [hjld, hms]
      | true => simp [hjld, hms, List.filter_append, isEchoEffect]

/-- C9: when no persistent script path is supplied, every run either stops
before the temporary directory is created (the log-directory computation
raises first) or begins by creating the temporary directory and ends —
on success and on every modelled failure, including a failing `sbatch` —
by removing it; when a persistent path is supplied, no temporary directory
is created or removed. -/
theorem C9_tmpdir_cleanup (runner : slurm_run_python.SlurmPythonRunner)
    (args : slurm_run_python.RunArgs) (write_ok sbatch_ok : Bool) :
    (args.slurm_script_path = none →
      ((slurm_run_python.run_entry_point runner args write_ok sbatch_ok).1 = [] ∨
        ((slurm_run_python.run_entry_point runner args write_ok sbatch_ok).1.head? =
            some slurm_run_python.Effect.mkTmpDir ∧
          (slurm_run_python.run_entry_point runner args write_ok sbatch_ok).1.getLast? =
            some slurm_run_python.Effect.rmTmpDir))) ∧
    (∀ p, args.slurm_script_path = some p →
      slurm_run_python.Effect.mkTmpDir ∉
        (slurm_run_python.run_entry_point runner args write_ok sbatch_ok).1 ∧
      slurm_run_python.Effect.rmTmpDir ∉
        (slurm_run_python.run_entry_point runner args write_ok sbatch_ok).1) := by
  unfold slurm_run_python.run_entry_point
  cases hjld : slurm_run_python.job_log_directory runner.log_base_directory
      args.job_name with
  | error err =>
    constructor
    · intro _
      exact Or.inl rfl
    · intro p _
      simp
  | ok jld =>
    cases hms : slurm_run_python.to_slurm_memory_string args.memory_request with
    | error err =>
      constructor
      · intro hsp
        refine Or.inr ?_
        simp [hsp]
      · intro p hsp
        simp [hsp]
    | ok ms =>
      cases write_ok with
      | false =>
        constructor
        · intro hsp
          refine Or.inr ?_
          simp [hsp, List.getLast?_append]
        · intro p hsp
          simp [hsp]
      | true =>
        cases hecho : args.echo_template with
        | false =>
          constructor
          · intro hsp
            refine Or.inr ?_
            simp [hsp, hecho, List.getLast?_append]
          · intro p hsp
            simp [hsp, hecho]
        | true =>
          constructor
          · intro hsp
            refine Or.inr ?_
            simp [hsp, hecho, List.getLast?_append]
          · intro p hsp
            simp [hsp, hecho]

/-- Witness for C9: a concrete run with the temporary directory (cleanup
happens around a failing sbatch) and a concrete run with a persistent
script path (no temporary directory at all). -/
theorem C9_tmpdir_cleanup_witness :
    ((slurm_run_python.run_entry_point
        (slurm_run_python.SlurmPythonRunner.mk "/logs" none none)
        { entry_point_name := "pkg.mod", param_file := "/p", partition := "gaia",
          working_directory := "/w", memory_request := MemoryAmount.mk 4 .gigabytes,
          job_name := "job", slurm_script_path := none }
        true false).1 = [] ∨
      ((slurm_run_python.run_entry_point
        (slurm_run_python.SlurmPythonRunner.mk "/logs" none none)
        { entry_point_name := "pkg.mod", param_file := "/p", partition := "gaia",
          working_directory := "/w", memory_request := MemoryAmount.mk 4 .gigabytes,
          job_name := "job", slurm_script_path := none }
        true false).1.head? = some slurm_run_python.Effect.mkTmpDir ∧
       (slurm_run_python.run_entry_point
        (slurm_run_python.SlurmPythonRunner.mk "/logs" none none)
        { entry_point_name := "pkg.mod", param_file := "/p", partition := "gaia",
          working_directory := "/w", memory_request := MemoryAmount.mk 4 .gigabytes,
          job_name := "job", slurm_script_path := none }
        true false).1.getLast? = some slurm_run_python.Effect.rmTmpDir)) ∧
    (slurm_run_python.Effect.mkTmpDir ∉
      (slurm_run_python.run_entry_point
        (slurm_run_python.SlurmPythonRunner.mk "/logs" none none)
        { entry_point_name := "pkg.mod", param_file := "/p", partition := "gaia",
          working_directory := "/w", memory_request := MemoryAmount.mk 4 .gigabytes,
          job_name := "job", slurm_script_path := some "/s.sbatch" }
        true true).1 ∧
     slurm_run_python.Effect.rmTmpDir ∉
      (slurm_run_python.run_entry_point
        (slurm_run_python.SlurmPythonRunner.mk "/logs" none none)
        { entry_point_name := "pkg.mod", param_file := "/p", partition := "gaia",
          working_directory := "/w", memory_request := MemoryAmount.mk 4 .gigabytes,
          job_name := "job", slurm_script_path := some "/s.sbatch" }
        true true).1) :=
  ⟨(C9_tmpdir_cleanup (slurm_run_python.SlurmPythonRunner.mk "/logs" none none)
      { entry_point_name := "pkg.mod", param_file := "/p", partition := "gaia",
        working_directory := "/w", memory_request := MemoryAmount.mk 4 .gigabytes,
        job_name := "job", slurm_script_path := none }
      true false).1 rfl,
   (C9_tmpdir_cleanup (slurm_run_python.SlurmPythonRunner.mk "/logs" none none)
      { entry_point_name := "pkg.mod", param_file := "/p", partition := "gaia",
        working_directory := "/w", memory_request := MemoryAmount.mk 4 .gigabytes,
        job_name := "job", slurm_script_path := some "/s.sbatch" }
      true true).2 "/s.sbatch" rfl⟩

end SagaTools
